import Mathlib

/-!
Verification of the evaluation/metrics core of DeepMoon's train_model.py.

The file gives a shallow embedding of the two algorithmically interesting
functions of the repository:

  * get_param_i  (train_model.py, lines 28-45): hyperparameter lookup with
    fallback to the first list element;
  * get_metrics  (train_model.py, lines 96-186): per-image ground-truth
    filtering, per-image precision / recall / F-beta / fraction-new metrics
    from the matcher's counts, and the end-of-epoch aggregate summary.

Modelling conventions:

  * Python floats are modelled by exact rationals (ℚ); Python ints by ℤ
    (so that N_templ - N_match is genuine integer subtraction, not
    truncated), image counts and loop indices by ℕ.
  * The external matcher template_match_t2c (from utils/, not part of this
    repository's src/) is an external collaborator: its 8-component result
    for an image is taken as an input, the MatchRecord structure below.
  * The model prediction preds[i] is likewise external and only ever passed
    to the matcher, so it does not appear in the embedding.
  * The sentinel csvs.append([-1]) (a length-1 list standing for "too few
    craters", later recognised by len(csvs[i]) < 3) is modelled by
    Option: none is the sentinel, some coords the usable coordinate list.
  * np.mean is modelled by npMean, np.max by npMax.  np.std(l) is the
    square root of npVar l (population variance, ddof = 0); since the
    square root of a nonnegative rational is not rational, every statement
    about "the standard deviation" is phrased through the variance (std
    equality is exactly variance equality, as sqrt is injective on
    nonnegative reals).
  * The summary block (lines 167-185) is modelled faithfully to its
    runtime behaviour.  Lines 170, 174, 177, 180, 182 and 184 join
    adjacent string literals with the / operator; since / and % have
    equal precedence and associate to the left, Python evaluates
    ("..." / "...") first and raises TypeError there, BEFORE the format
    tuple with its np.mean / np.std calls is evaluated.  So when
    len(recall) > 3 the function computes and prints np.mean(recall) and
    np.std(recall) (the well-formed print of lines 168-169) and then
    aborts at line 170 with an uncaught TypeError: no further summary
    statistic is ever computed.  The outcome of the block is the
    SummaryOutcome type below: either no_summary (guard False, block
    skipped, normal return) or type_error carrying the only two aggregate
    statistics computed before the crash.
-/

namespace DeepMoon

/-- One row of an image's ground-truth crater table: pixel-space center
coordinates x, y and the column `Diameter (pix)`. -/
structure CsvRow where
  x : ℚ
  y : ℚ
  diam : ℚ
  deriving DecidableEq

/-- The 8-tuple returned by the external matcher template_match_t2c for one
image: N_match, N_csv, N_templ, maxr, err_lo, err_la, err_r and the
duplicates list (only its length is ever used, so it is modelled by the
count dups). -/
structure MatchRecord where
  N_match : ℤ
  N_csv : ℤ
  N_templ : ℤ
  maxr : ℚ
  elo : ℚ
  ela : ℚ
  er : ℚ
  dups : ℕ
  deriving DecidableEq

/-- One image of the evaluation batch: its raw ground-truth table
craters[get_id i] and the matcher's result for it. -/
structure ImageInput where
  csv : List CsvRow
  mrec : MatchRecord
  deriving DecidableEq

/-- minrad default (train_model.py line 116). -/
def minrad : ℚ := 2

/-- maxrad default (train_model.py line 116). -/
def maxrad : ℚ := 50

/-- cutrad default 0.8 (train_model.py line 116). -/
def cutrad : ℚ := 4 / 5

/-- The row filter of train_model.py lines 121-125: the five sequential
pandas filters, conjoined.  A row survives iff
  diam < 2 * maxrad  and  diam > 2 * minrad  and
  x + cutrad * diam / 2 <= dim  and  y + cutrad * diam / 2 <= dim  and
  x - cutrad * diam / 2 > 0     and  y - cutrad * diam / 2 > 0. -/
def keepRow (dim : ℚ) (r : CsvRow) : Bool :=
  decide (r.diam < 2 * maxrad) && decide (r.diam > 2 * minrad) &&
  decide (r.x + cutrad * r.diam / 2 ≤ dim) &&
  decide (r.y + cutrad * r.diam / 2 ≤ dim) &&
  decide (r.x - cutrad * r.diam / 2 > 0) &&
  decide (r.y - cutrad * r.diam / 2 > 0)

/-- One entry of the csvs list (train_model.py lines 118-130): filter the
rows; if fewer than 3 remain, the sentinel [-1] (modelled none), else the
(x, y, diam / 2) coordinate triples. -/
def csvEntry (dim : ℚ) (rows : List CsvRow) : Option (List (ℚ × ℚ × ℚ)) :=
  let f := rows.filter (keepRow dim)
  if f.length < 3 then none
  else some (f.map (fun r => (r.x, r.y, r.diam / 2)))

/-- p = float(N_match) / float(N_match + (N_templ - N_match))  (line 146). -/
def precisionOf (m : MatchRecord) : ℚ :=
  (m.N_match : ℚ) / ((m.N_match + (m.N_templ - m.N_match) : ℤ) : ℚ)

/-- r = float(N_match) / float(N_csv)  (line 147). -/
def recallOf (m : MatchRecord) : ℚ :=
  (m.N_match : ℚ) / (m.N_csv : ℚ)

/-- f = (1 + beta**2) * (r * p) / (p * beta**2 + r)  (line 148). -/
def fscoreOf (beta : ℚ) (m : MatchRecord) : ℚ :=
  (1 + beta ^ 2) * (recallOf m * precisionOf m) /
    (precisionOf m * beta ^ 2 + recallOf m)

/-- fn = float(N_templ - N_match) / float(N_templ)  (line 149). -/
def fracNewOf (m : MatchRecord) : ℚ :=
  ((m.N_templ - m.N_match : ℤ) : ℚ) / (m.N_templ : ℚ)

/-- fn2 = float(N_templ - N_match) / float(N_csv)  (line 150). -/
def fracNew2Of (m : MatchRecord) : ℚ :=
  ((m.N_templ - m.N_match : ℤ) : ℚ) / (m.N_csv : ℚ)

/-- The mutable state of the metrics loop (train_model.py lines 135-137
and the two report channels: the skipped-image printout of line 163 as
(i, N_csv, N_templ, N_match) tuples, and the duplicate notices of
line 161 as image indices).  The source's list named recall is the field
recall_list here, because recall is a reserved command name in this
toolchain; every other field keeps its source name. -/
structure Accum where
  recall_list : List ℚ
  precision : List ℚ
  fscore : List ℚ
  frac_new : List ℚ
  frac_new2 : List ℚ
  maxrad : List ℚ
  err_lo : List ℚ
  err_la : List ℚ
  err_r : List ℚ
  skipped : List (ℕ × ℤ × ℤ × ℤ)
  dup_flagged : List ℕ
  deriving DecidableEq

/-- The loop state before the first iteration: all lists empty. -/
def emptyAccum : Accum := ⟨[], [], [], [], [], [], [], [], [], [], []⟩

/-- One iteration of the metrics loop (train_model.py lines 139-164) on
image i: skip when csvs[i] is the sentinel; otherwise, if N_match > 0,
append the five derived metrics, maxr and the three error values (plus a
duplicate notice when the duplicates list is non-empty); if N_match <= 0,
report the image as skipped with its raw counts. -/
def processImage (dim beta : ℚ) (acc : Accum) (i : ℕ) (im : ImageInput) :
    Accum :=
  match csvEntry dim im.csv with
  | none => acc
  | some _ =>
    let m := im.mrec
    if 0 < m.N_match then
      let acc2 :=
        { acc with
          recall_list := acc.recall_list ++ [recallOf m],
          precision := acc.precision ++ [precisionOf m],
          fscore := acc.fscore ++ [fscoreOf beta m],
          frac_new := acc.frac_new ++ [fracNewOf m],
          frac_new2 := acc.frac_new2 ++ [fracNew2Of m],
          maxrad := acc.maxrad ++ [m.maxr],
          err_lo := acc.err_lo ++ [m.elo],
          err_la := acc.err_la ++ [m.ela],
          err_r := acc.err_r ++ [m.er] }
      if 0 < m.dups then
        { acc2 with dup_flagged := acc2.dup_flagged ++ [i] }
      else acc2
    else
      { acc with
        skipped := acc.skipped ++ [(i, m.N_csv, m.N_templ, m.N_match)] }

/-- The metrics loop, indexed from i, threading the accumulator exactly as
the for-loop of train_model.py lines 139-164 does. -/
def runFrom (dim beta : ℚ) : ℕ → Accum → List ImageInput → Accum
  | _, acc, [] => acc
  | i, acc, im :: rest => runFrom dim beta (i + 1) (processImage dim beta acc i im) rest

/-- np.mean of a list of rationals. -/
def npMean (l : List ℚ) : ℚ := l.sum / (l.length : ℚ)

/-- The population variance (np.std squared, ddof = 0) of a list. -/
def npVar (l : List ℚ) : ℚ :=
  ((l.map (fun x => (x - npMean l) ^ 2)).sum) / (l.length : ℚ)

/-- np.max of a list of rationals (0 on the empty list, on which the
source never calls it). -/
def npMax : List ℚ → ℚ
  | [] => 0
  | [x] => x
  | x :: y :: xs => max x (npMax (y :: xs))

/-- The runtime outcome of the summary block (train_model.py lines
167-185).  When len(recall) <= 3 the guard of line 167 is False, nothing
of the block runs and get_metrics returns normally: no_summary.  When
len(recall) > 3, line 168-169 (the only well-formed summary print)
computes and prints np.mean(recall) and np.std(recall), and then line 170
evaluates the left-associated subexpression "...str..." / "...str..."
and raises TypeError before the tuple with np.mean(precision) is reached:
type_error carries the recall mean and the recall variance (the square of
the printed np.std), the only aggregate statistics computed before the
uncaught exception aborts the function.  No other summary statistic
(precision / fscore / frac_new / frac_new2 / maxrad means or stds, error
means, global maximum of maxrad) is ever computed. -/
inductive SummaryOutcome where
  | no_summary : SummaryOutcome
  | type_error : ℚ → ℚ → SummaryOutcome
  deriving DecidableEq

/-- get_metrics (train_model.py lines 96-186), at the level of computed
numbers: run the loop over the batch, then execute the summary block,
which raises TypeError at line 170 whenever the guard len(recall) > 3 of
line 167 is True. -/
def get_metrics (dim : ℚ) (imgs : List ImageInput) (beta : ℚ) :
    Accum × SummaryOutcome :=
  let acc := runFrom dim beta 0 emptyAccum imgs
  (acc,
    if 3 < acc.recall_list.length then
      SummaryOutcome.type_error (npMean acc.recall_list) (npVar acc.recall_list)
    else SummaryOutcome.no_summary)

/-- get_metrics with its default beta = 1 (train_model.py line 96). -/
def get_metrics_default (dim : ℚ) (imgs : List ImageInput) :
    Accum × SummaryOutcome :=
  get_metrics dim imgs 1

/-- An image contributes to the aggregate lists iff its csvs entry is not
the sentinel (at least 3 rows survive the filter) and N_match > 0. -/
def qualifies (dim : ℚ) (im : ImageInput) : Bool :=
  (csvEntry dim im.csv).isSome && decide (0 < im.mrec.N_match)

/-- The sub-batch of images that contribute to the aggregates. -/
def qualifyList (dim : ℚ) (imgs : List ImageInput) : List ImageInput :=
  imgs.filter (qualifies dim)

/-- get_param_i (train_model.py lines 28-45): param[i] when the list is
long enough, else param[0].  Indexing is modelled fallibly (Python raises
IndexError on an out-of-range index). -/
def get_param_i {α : Type} (param : List α) (i : ℕ) : Option α :=
  if param.length > i then param[i]? else param[0]?

/-- The ground-truth filter exactly as claim C2 words it: the radius
diam / 2 inside the open band (minrad, maxrad), and the center strictly
farther than cutrad times the DIAMETER from every edge of the dim x dim
image.  Written from the claim, to be compared with keepRow (the filter
written from the source). -/
def keepSpecC2 (dim : ℚ) (r : CsvRow) : Bool :=
  decide (minrad < r.diam / 2) && decide (r.diam / 2 < maxrad) &&
  decide (cutrad * r.diam < r.x) && decide (cutrad * r.diam < r.y) &&
  decide (cutrad * r.diam < dim - r.x) && decide (cutrad * r.diam < dim - r.y)

/-- A ground-truth row comfortably inside a 256 x 256 image: radius 10,
well clear of every border. -/
def row0 : CsvRow := ⟨100, 100, 20⟩

/-- A three-row ground-truth table, the smallest size the loop accepts. -/
def csv3 : List CsvRow := [row0, row0, row0]

/-- A matcher record with N_match = 2, N_csv = 3, N_templ = 4, maxr = 10,
no duplicates, and a chosen fractional x error e. -/
def mrecA (e : ℚ) : MatchRecord := ⟨2, 3, 4, 10, e, 0, 0, 0⟩

/-- A matcher record with zero matches. -/
def mrec0 : MatchRecord := ⟨0, 3, 4, 10, 0, 0, 0, 0⟩

/-- Four qualifying images whose x-error values are all 0
(mean 0, variance 0). -/
def batchA : List ImageInput :=
  [⟨csv3, mrecA 0⟩, ⟨csv3, mrecA 0⟩, ⟨csv3, mrecA 0⟩, ⟨csv3, mrecA 0⟩]

/-- Four qualifying images identical to batchA except that the x-error
values are 1, -1, 1, -1 (same mean 0, variance 1). -/
def batchB : List ImageInput :=
  [⟨csv3, mrecA 1⟩, ⟨csv3, mrecA (-1)⟩, ⟨csv3, mrecA 1⟩, ⟨csv3, mrecA (-1)⟩]

/-! ### Characterising the loop: each accumulated list is a map over the
qualifying sub-batch, independent of the loop index and initial state. -/

lemma runFrom_recall (dim beta : ℚ) :
    ∀ (imgs : List ImageInput) (i : ℕ) (acc : Accum),
    (runFrom dim beta i acc imgs).recall_list
      = acc.recall_list
          ++ (imgs.filter (qualifies dim)).map (fun im => recallOf im.mrec) := by
  intro imgs
  induction imgs with
  | nil => intro i acc; simp [runFrom]
  | cons im rest ih =>
    intro i acc
    rcases hcv : csvEntry dim im.csv with _ | v
    · simp [runFrom, processImage, qualifies, hcv, ih]
    · by_cases h2 : 0 < im.mrec.N_match
      · by_cases h3 : 0 < im.mrec.dups
        · simp [runFrom, processImage, qualifies, hcv, h2, h3, ih]
        · simp [runFrom, processImage, qualifies, hcv, h2, h3, ih]
      · simp [runFrom, processImage, qualifies, hcv, h2, ih]

lemma runFrom_precision (dim beta : ℚ) :
    ∀ (imgs : List ImageInput) (i : ℕ) (acc : Accum),
    (runFrom dim beta i acc imgs).precision
      = acc.precision
          ++ (imgs.filter (qualifies dim)).map (fun im => precisionOf im.mrec) := by
  intro imgs
  induction imgs with
  | nil => intro i acc; simp [runFrom]
  | cons im rest ih =>
    intro i acc
    rcases hcv : csvEntry dim im.csv with _ | v
    · simp [runFrom, processImage, qualifies, hcv, ih]
    · by_cases h2 : 0 < im.mrec.N_match
      · by_cases h3 : 0 < im.mrec.dups
        · simp [runFrom, processImage, qualifies, hcv, h2, h3, ih]
        · simp [runFrom, processImage, qualifies, hcv, h2, h3, ih]
      · simp [runFrom, processImage, qualifies, hcv, h2, ih]

lemma runFrom_fscore (dim beta : ℚ) :
    ∀ (imgs : List ImageInput) (i : ℕ) (acc : Accum),
    (runFrom dim beta i acc imgs).fscore
      = acc.fscore
          ++ (imgs.filter (qualifies dim)).map (fun im => fscoreOf beta im.mrec) := by
  intro imgs
  induction imgs with
  | nil => intro i acc; simp [runFrom]
  | cons im rest ih =>
    intro i acc
    rcases hcv : csvEntry dim im.csv with _ | v
    · simp [runFrom, processImage, qualifies, hcv, ih]
    · by_cases h2 : 0 < im.mrec.N_match
      · by_cases h3 : 0 < im.mrec.dups
        · simp [runFrom, processImage, qualifies, hcv, h2, h3, ih]
        · simp [runFrom, processImage, qualifies, hcv, h2, h3, ih]
      · simp [runFrom, processImage, qualifies, hcv, h2, ih]

lemma runFrom_frac_new (dim beta : ℚ) :
    ∀ (imgs : List ImageInput) (i : ℕ) (acc : Accum),
    (runFrom dim beta i acc imgs).frac_new
      = acc.frac_new
          ++ (imgs.filter (qualifies dim)).map (fun im => fracNewOf im.mrec) := by
  intro imgs
  induction imgs with
  | nil => intro i acc; simp [runFrom]
  | cons im rest ih =>
    intro i acc
    rcases hcv : csvEntry dim im.csv with _ | v
    · simp [runFrom, processImage, qualifies, hcv, ih]
    · by_cases h2 : 0 < im.mrec.N_match
      · by_cases h3 : 0 < im.mrec.dups
        · simp [runFrom, processImage, qualifies, hcv, h2, h3, ih]
        · simp [runFrom, processImage, qualifies, hcv, h2, h3, ih]
      · simp [runFrom, processImage, qualifies, hcv, h2, ih]

lemma runFrom_frac_new2 (dim beta : ℚ) :
    ∀ (imgs : List ImageInput) (i : ℕ) (acc : Accum),
    (runFrom dim beta i acc imgs).frac_new2
      = acc.frac_new2
          ++ (imgs.filter (qualifies dim)).map (fun im => fracNew2Of im.mrec) := by
  intro imgs
  induction imgs with
  | nil => intro i acc; simp [runFrom]
  | cons im rest ih =>
    intro i acc
    rcases hcv : csvEntry dim im.csv with _ | v
    · simp [runFrom, processImage, qualifies, hcv, ih]
    · by_cases h2 : 0 < im.mrec.N_match
      · by_cases h3 : 0 < im.mrec.dups
        · simp [runFrom, processImage, qualifies, hcv, h2, h3, ih]
        · simp [runFrom, processImage, qualifies, hcv, h2, h3, ih]
      · simp [runFrom, processImage, qualifies, hcv, h2, ih]

lemma runFrom_maxrad (dim beta : ℚ) :
    ∀ (imgs : List ImageInput) (i : ℕ) (acc : Accum),
    (runFrom dim beta i acc imgs).maxrad
      = acc.maxrad ++ (imgs.filter (qualifies dim)).map (fun im => im.mrec.maxr) := by
  intro imgs
  induction imgs with
  | nil => intro i acc; simp [runFrom]
  | cons im rest ih =>
    intro i acc
    rcases hcv : csvEntry dim im.csv with _ | v
    · simp [runFrom, processImage, qualifies, hcv, ih]
    · by_cases h2 : 0 < im.mrec.N_match
      · by_cases h3 : 0 < im.mrec.dups
        · simp [runFrom, processImage, qualifies, hcv, h2, h3, ih]
        · simp [runFrom, processImage, qualifies, hcv, h2, h3, ih]
      · simp [runFrom, processImage, qualifies, hcv, h2, ih]

lemma runFrom_err_lo (dim beta : ℚ) :
    ∀ (imgs : List ImageInput) (i : ℕ) (acc : Accum),
    (runFrom dim beta i acc imgs).err_lo
      = acc.err_lo ++ (imgs.filter (qualifies dim)).map (fun im => im.mrec.elo) := by
  intro imgs
  induction imgs with
  | nil => intro i acc; simp [runFrom]
  | cons im rest ih =>
    intro i acc
    rcases hcv : csvEntry dim im.csv with _ | v
    · simp [runFrom, processImage, qualifies, hcv, ih]
    · by_cases h2 : 0 < im.mrec.N_match
      · by_cases h3 : 0 < im.mrec.dups
        · simp [runFrom, processImage, qualifies, hcv, h2, h3, ih]
        · simp [runFrom, processImage, qualifies, hcv, h2, h3, ih]
      · simp [runFrom, processImage, qualifies, hcv, h2, ih]

lemma runFrom_err_la (dim beta : ℚ) :
    ∀ (imgs : List ImageInput) (i : ℕ) (acc : Accum),
    (runFrom dim beta i acc imgs).err_la
      = acc.err_la ++ (imgs.filter (qualifies dim)).map (fun im => im.mrec.ela) := by
  intro imgs
  induction imgs with
  | nil => intro i acc; simp [runFrom]
  | cons im rest ih =>
    intro i acc
    rcases hcv : csvEntry dim im.csv with _ | v
    · simp [runFrom, processImage, qualifies, hcv, ih]
    · by_cases h2 : 0 < im.mrec.N_match
      · by_cases h3 : 0 < im.mrec.dups
        · simp [runFrom, processImage, qualifies, hcv, h2, h3, ih]
        · simp [runFrom, processImage, qualifies, hcv, h2, h3, ih]
      · simp [runFrom, processImage, qualifies, hcv, h2, ih]

lemma runFrom_err_r (dim beta : ℚ) :
    ∀ (imgs : List ImageInput) (i : ℕ) (acc : Accum),
    (runFrom dim beta i acc imgs).err_r
      = acc.err_r ++ (imgs.filter (qualifies dim)).map (fun im => im.mrec.er) := by
  intro imgs
  induction imgs with
  | nil => intro i acc; simp [runFrom]
  | cons im rest ih =>
    intro i acc
    rcases hcv : csvEntry dim im.csv with _ | v
    · simp [runFrom, processImage, qualifies, hcv, ih]
    · by_cases h2 : 0 < im.mrec.N_match
      · by_cases h3 : 0 < im.mrec.dups
        · simp [runFrom, processImage, qualifies, hcv, h2, h3, ih]
        · simp [runFrom, processImage, qualifies, hcv, h2, h3, ih]
      · simp [runFrom, processImage, qualifies, hcv, h2, ih]

/-! ### The same characterisations at the get_metrics entry point. -/

lemma metrics_recall (dim beta : ℚ) (imgs : List ImageInput) :
    (get_metrics dim imgs beta).1.recall_list
      = (qualifyList dim imgs).map (fun im => recallOf im.mrec) := by
  simp [get_metrics, runFrom_recall, emptyAccum, qualifyList]

lemma metrics_precision (dim beta : ℚ) (imgs : List ImageInput) :
    (get_metrics dim imgs beta).1.precision
      = (qualifyList dim imgs).map (fun im => precisionOf im.mrec) := by
  simp [get_metrics, runFrom_precision, emptyAccum, qualifyList]

lemma metrics_fscore (dim beta : ℚ) (imgs : List ImageInput) :
    (get_metrics dim imgs beta).1.fscore
      = (qualifyList dim imgs).map (fun im => fscoreOf beta im.mrec) := by
  simp [get_metrics, runFrom_fscore, emptyAccum, qualifyList]

lemma metrics_frac_new (dim beta : ℚ) (imgs : List ImageInput) :
    (get_metrics dim imgs beta).1.frac_new
      = (qualifyList dim imgs).map (fun im => fracNewOf im.mrec) := by
  simp [get_metrics, runFrom_frac_new, emptyAccum, qualifyList]

lemma metrics_frac_new2 (dim beta : ℚ) (imgs : List ImageInput) :
    (get_metrics dim imgs beta).1.frac_new2
      = (qualifyList dim imgs).map (fun im => fracNew2Of im.mrec) := by
  simp [get_metrics, runFrom_frac_new2, emptyAccum, qualifyList]

lemma metrics_maxrad (dim beta : ℚ) (imgs : List ImageInput) :
    (get_metrics dim imgs beta).1.maxrad
      = (qualifyList dim imgs).map (fun im => im.mrec.maxr) := by
  simp [get_metrics, runFrom_maxrad, emptyAccum, qualifyList]

lemma metrics_err_lo (dim beta : ℚ) (imgs : List ImageInput) :
    (get_metrics dim imgs beta).1.err_lo
      = (qualifyList dim imgs).map (fun im => im.mrec.elo) := by
  simp [get_metrics, runFrom_err_lo, emptyAccum, qualifyList]

lemma metrics_err_la (dim beta : ℚ) (imgs : List ImageInput) :
    (get_metrics dim imgs beta).1.err_la
      = (qualifyList dim imgs).map (fun im => im.mrec.ela) := by
  simp [get_metrics, runFrom_err_la, emptyAccum, qualifyList]

lemma metrics_err_r (dim beta : ℚ) (imgs : List ImageInput) :
    (get_metrics dim imgs beta).1.err_r
      = (qualifyList dim imgs).map (fun im => im.mrec.er) := by
  simp [get_metrics, runFrom_err_r, emptyAccum, qualifyList]

/-! ### Permutation invariance of the numpy aggregates. -/

lemma npMean_perm {l1 l2 : List ℚ} (h : l1.Perm l2) : npMean l1 = npMean l2 := by
  unfold npMean
  rw [h.sum_eq, h.length_eq]

lemma npVar_perm {l1 l2 : List ℚ} (h : l1.Perm l2) : npVar l1 = npVar l2 := by
  unfold npVar
  rw [npMean_perm h, (h.map _).sum_eq, h.length_eq]

lemma npMax_cons (x : ℚ) {l : List ℚ} (h : l ≠ []) :
    npMax (x :: l) = max x (npMax l) := by
  cases l with
  | nil => exact absurd rfl h
  | cons y ys => rfl

lemma npMax_perm {l1 l2 : List ℚ} (h : l1.Perm l2) : npMax l1 = npMax l2 := by
  induction h with
  | nil => rfl
  | cons x p ih =>
    rename_i t1 t2
    rcases t1 with _ | ⟨a, t⟩
    · rw [p.symm.eq_nil]
    · have h2 : t2 ≠ [] := by
        intro he
        subst he
        exact List.cons_ne_nil a t p.eq_nil
      rw [npMax_cons x (List.cons_ne_nil a t), npMax_cons x h2, ih]
  | swap x y l =>
    cases l with
    | nil => simp [npMax, max_comm]
    | cons a t =>
      rw [npMax_cons y (List.cons_ne_nil x (a :: t)),
        npMax_cons x (List.cons_ne_nil a t),
        npMax_cons x (List.cons_ne_nil y (a :: t)),
        npMax_cons y (List.cons_ne_nil a t)]
      exact max_left_comm y x (npMax (a :: t))
  | trans p q ih1 ih2 => exact ih1.trans ih2

/-- When more than 3 images qualify, the summary block computes the
recall mean and variance and then raises TypeError at line 170. -/
lemma metrics_outcome_pos (dim beta : ℚ) (imgs : List ImageInput)
    (h : 3 < (qualifyList dim imgs).length) :
    (get_metrics dim imgs beta).2
      = SummaryOutcome.type_error
          (npMean ((qualifyList dim imgs).map fun im => recallOf im.mrec))
          (npVar ((qualifyList dim imgs).map fun im => recallOf im.mrec)) := by
  have hrec : (runFrom dim beta 0 emptyAccum imgs).recall_list
      = (qualifyList dim imgs).map fun im => recallOf im.mrec := by
    have := metrics_recall dim beta imgs
    simpa only [get_metrics] using this
  simp only [get_metrics, hrec, List.length_map, if_pos h]

/-- With 3 or fewer qualifying images the summary block is skipped
entirely. -/
lemma metrics_outcome_none (dim beta : ℚ) (imgs : List ImageInput)
    (h : ¬ 3 < (qualifyList dim imgs).length) :
    (get_metrics dim imgs beta).2 = SummaryOutcome.no_summary := by
  have hc : ¬ 3 < (runFrom dim beta 0 emptyAccum imgs).recall_list.length := by
    have := metrics_recall dim beta imgs
    simp only [get_metrics] at this
    rw [this, List.length_map]
    exact h
  simp only [get_metrics, if_neg hc]

/-! ### Evaluating the embedding on the concrete example batches. -/

lemma keepRow_row0 : keepRow 256 row0 = true := by
  norm_num [keepRow, row0, minrad, maxrad, cutrad]

lemma csvEntry_csv3 :
    csvEntry 256 csv3 = some [(100, 100, 10), (100, 100, 10), (100, 100, 10)] := by
  norm_num [csvEntry, csv3, row0, keepRow, minrad, maxrad, cutrad, List.filter]

lemma qualifyList_batchA : qualifyList 256 batchA = batchA := by
  simp [qualifyList, List.filter, qualifies, batchA, csvEntry_csv3, mrecA]

lemma qualifyList_batchB : qualifyList 256 batchB = batchB := by
  simp [qualifyList, List.filter, qualifies, batchB, csvEntry_csv3, mrecA]

/-! ### The claims. -/

/-- C1: for every image included in the per-epoch aggregate (at least 3
usable ground-truth circles and N_match > 0), get_metrics records that
image's precision as N_match / (N_match + (N_templ - N_match)), its recall
as N_match / N_csv, and its F-beta score as
(1 + beta^2) * (recall * precision) / (precision * beta^2 + recall), the
counts being the matcher's counts for that image; beta defaults to 1. -/
theorem c1_included_image_metric_formulas (dim beta : ℚ) (imgs : List ImageInput) :
    (get_metrics dim imgs beta).1.precision
        = (qualifyList dim imgs).map (fun im =>
            (im.mrec.N_match : ℚ)
              / ((im.mrec.N_match : ℚ)
                  + ((im.mrec.N_templ : ℚ) - (im.mrec.N_match : ℚ)))) ∧
      (get_metrics dim imgs beta).1.recall_list
        = (qualifyList dim imgs).map (fun im =>
            (im.mrec.N_match : ℚ) / (im.mrec.N_csv : ℚ)) ∧
      (get_metrics dim imgs beta).1.fscore
        = (qualifyList dim imgs).map (fun im =>
            (1 + beta ^ 2) * (recallOf im.mrec * precisionOf im.mrec)
              / (precisionOf im.mrec * beta ^ 2 + recallOf im.mrec)) ∧
      get_metrics_default dim imgs = get_metrics dim imgs 1 := by
  refine ⟨?_, ?_, ?_, rfl⟩
  · rw [metrics_precision]
    refine List.map_congr_left ?_
    intro im _
    unfold precisionOf
    push_cast
    ring
  · rw [metrics_recall]
    refine List.map_congr_left ?_
    intro im _
    rfl
  · rw [metrics_fscore]
    refine List.map_congr_left ?_
    intro im _
    rfl

/-- C2, counterexample: the row (x, y, diam) = (246, 128, 20) in a
256 x 256 image is kept by the source filter (its border margin is
cutrad * diam / 2 = 8, and 246 + 8 <= 256), but the claim's filter
rejects it: the distance to the right edge is 256 - 246 = 10, not greater
than the claimed margin cutrad * diam = 16.  So the claimed
characterisation of the kept rows is false. -/
theorem c2_border_filter_counterexample :
    keepRow 256 ⟨246, 128, 20⟩ = true ∧ keepSpecC2 256 ⟨246, 128, 20⟩ = false := by
  constructor <;> norm_num [keepRow, keepSpecC2, minrad, maxrad, cutrad]

/-- C2, amended: a row is kept iff its radius diam / 2 lies in the open
band (minrad, maxrad) and its center is strictly farther than
cutrad * (diam / 2) — the cutrad fraction of the RADIUS — from the left
and top edges, and at least that margin from the right and bottom edges
(the source uses strict > against 0 but non-strict <= against dim). -/
theorem c2_border_filter_amended (dim : ℚ) (r : CsvRow) :
    keepRow dim r = true ↔
      (minrad < r.diam / 2 ∧ r.diam / 2 < maxrad ∧
       cutrad * (r.diam / 2) < r.x ∧ cutrad * (r.diam / 2) < r.y ∧
       cutrad * (r.diam / 2) ≤ dim - r.x ∧ cutrad * (r.diam / 2) ≤ dim - r.y) := by
  have e : cutrad * (r.diam / 2) = cutrad * r.diam / 2 := by ring
  simp only [keepRow, Bool.and_eq_true, decide_eq_true_eq]
  constructor
  · rintro ⟨⟨⟨⟨⟨hb1, hb2⟩, ht1⟩, ht2⟩, hl1⟩, hl2⟩
    exact ⟨by linarith, by linarith, by linarith, by linarith, by linarith, by linarith⟩
  · rintro ⟨h1, h2, h3, h4, h5, h6⟩
    exact ⟨⟨⟨⟨⟨by linarith, by linarith⟩, by linarith⟩, by linarith⟩, by linarith⟩,
      by linarith⟩

/-- C3: an image whose filtered ground truth has fewer than 3 usable rows
is silently excluded: the loop body returns the accumulator unchanged, so
the image contributes to none of the recall, precision, fscore, frac_new,
frac_new2, maxrad or error lists (nor to the skipped report). -/
theorem c3_insufficient_csv_silently_skipped (dim beta : ℚ) (acc : Accum) (i : ℕ)
    (im : ImageInput) (h : (im.csv.filter (keepRow dim)).length < 3) :
    processImage dim beta acc i im = acc := by
  unfold processImage csvEntry
  simp [h]

/-- Witness for C3 at a concrete one-row table. -/
theorem c3_insufficient_csv_witness :
    processImage 256 1 emptyAccum 0 ⟨[row0], mrecA 0⟩ = emptyAccum :=
  c3_insufficient_csv_silently_skipped 256 1 emptyAccum 0 ⟨[row0], mrecA 0⟩
    (by simp [List.filter, keepRow_row0])

/-- C4: an image with at least 3 usable ground-truth rows but
N_match = 0 contributes to none of the aggregate lists, and is instead
reported individually in the skipped printout together with its raw
counts N_csv, N_templ, N_match. -/
theorem c4_zero_match_reported_excluded (dim beta : ℚ) (acc : Accum) (i : ℕ)
    (im : ImageInput) (h3 : 3 ≤ (im.csv.filter (keepRow dim)).length)
    (h0 : im.mrec.N_match = 0) :
    (processImage dim beta acc i im).recall_list = acc.recall_list ∧
    (processImage dim beta acc i im).precision = acc.precision ∧
    (processImage dim beta acc i im).fscore = acc.fscore ∧
    (processImage dim beta acc i im).frac_new = acc.frac_new ∧
    (processImage dim beta acc i im).frac_new2 = acc.frac_new2 ∧
    (processImage dim beta acc i im).maxrad = acc.maxrad ∧
    (processImage dim beta acc i im).err_lo = acc.err_lo ∧
    (processImage dim beta acc i im).err_la = acc.err_la ∧
    (processImage dim beta acc i im).err_r = acc.err_r ∧
    (processImage dim beta acc i im).skipped
      = acc.skipped ++ [(i, im.mrec.N_csv, im.mrec.N_templ, im.mrec.N_match)] := by
  have hnot : ¬ (im.csv.filter (keepRow dim)).length < 3 := not_lt.mpr h3
  unfold processImage csvEntry
  simp [hnot, h0]

/-- Witness for C4 at a concrete zero-match image. -/
theorem c4_zero_match_witness :
    (processImage 256 1 emptyAccum 5 ⟨csv3, mrec0⟩).recall_list
        = emptyAccum.recall_list ∧
    (processImage 256 1 emptyAccum 5 ⟨csv3, mrec0⟩).precision = emptyAccum.precision ∧
    (processImage 256 1 emptyAccum 5 ⟨csv3, mrec0⟩).fscore = emptyAccum.fscore ∧
    (processImage 256 1 emptyAccum 5 ⟨csv3, mrec0⟩).frac_new = emptyAccum.frac_new ∧
    (processImage 256 1 emptyAccum 5 ⟨csv3, mrec0⟩).frac_new2 = emptyAccum.frac_new2 ∧
    (processImage 256 1 emptyAccum 5 ⟨csv3, mrec0⟩).maxrad = emptyAccum.maxrad ∧
    (processImage 256 1 emptyAccum 5 ⟨csv3, mrec0⟩).err_lo = emptyAccum.err_lo ∧
    (processImage 256 1 emptyAccum 5 ⟨csv3, mrec0⟩).err_la = emptyAccum.err_la ∧
    (processImage 256 1 emptyAccum 5 ⟨csv3, mrec0⟩).err_r = emptyAccum.err_r ∧
    (processImage 256 1 emptyAccum 5 ⟨csv3, mrec0⟩).skipped
      = emptyAccum.skipped ++ [(5, mrec0.N_csv, mrec0.N_templ, mrec0.N_match)] :=
  c4_zero_match_reported_excluded 256 1 emptyAccum 5 ⟨csv3, mrec0⟩
    (by simp [csv3, List.filter, keepRow_row0]) rfl

/-- C5: under the guard N_match > 0 and the matcher invariants
N_match <= N_csv and N_match <= N_templ, every denominator of the five
divisions of lines 146-150 — N_match + (N_templ - N_match) for precision,
N_csv for recall and frac_new2, precision * beta^2 + recall for the
F-beta score, and N_templ for frac_new — is nonzero. -/
theorem c5_no_division_by_zero (beta : ℚ) (m : MatchRecord) (h0 : 0 < m.N_match)
    (h1 : m.N_match ≤ m.N_csv) (h2 : m.N_match ≤ m.N_templ) :
    ((m.N_match + (m.N_templ - m.N_match) : ℤ) : ℚ) ≠ 0 ∧
    (m.N_csv : ℚ) ≠ 0 ∧
    precisionOf m * beta ^ 2 + recallOf m ≠ 0 ∧
    (m.N_templ : ℚ) ≠ 0 := by
  have ht : (0 : ℤ) < m.N_templ := lt_of_lt_of_le h0 h2
  have hc : (0 : ℤ) < m.N_csv := lt_of_lt_of_le h0 h1
  have hden : m.N_match + (m.N_templ - m.N_match) = m.N_templ := by ring
  have hp : 0 < precisionOf m := by
    unfold precisionOf
    apply div_pos
    · exact_mod_cast h0
    · rw [hden]
      exact_mod_cast ht
  have hr : 0 < recallOf m := by
    unfold recallOf
    apply div_pos
    · exact_mod_cast h0
    · exact_mod_cast hc
  refine ⟨?_, ?_, ?_, ?_⟩
  · rw [hden]
    exact_mod_cast ht.ne'
  · exact_mod_cast hc.ne'
  · exact (add_pos_of_nonneg_of_pos (mul_nonneg hp.le (sq_nonneg beta)) hr).ne'
  · exact_mod_cast ht.ne'

/-- Witness for C5 at the concrete record (2, 3, 4, ...) with beta = 1. -/
theorem c5_no_division_witness :
    (((mrecA 0).N_match + ((mrecA 0).N_templ - (mrecA 0).N_match) : ℤ) : ℚ) ≠ 0 ∧
    ((mrecA 0).N_csv : ℚ) ≠ 0 ∧
    precisionOf (mrecA 0) * 1 ^ 2 + recallOf (mrecA 0) ≠ 0 ∧
    ((mrecA 0).N_templ : ℚ) ≠ 0 :=
  c5_no_division_by_zero 1 (mrecA 0) (by decide) (by decide) (by decide)

/-- C6, counterexample: batchA and batchB both drive the summary block
into its only reachable behaviour — computing and printing the recall
mean and std, then the TypeError of line 170 — and everything computed is
identical for the two batches, yet the standard deviations of their
err_lo lists differ (variance 0 versus 1).  If get_metrics computed the
standard deviation of the fractional x errors (or any per-metric std
beyond recall), the outcomes could not coincide; so the claim that the
mean AND the std of every per-image metric including the errors are
computed is false.  (It fails twice over: the crash prevents everything
after the recall statistics, and even the intended, slip-free prints of
lines 180-181 apply only np.mean to the error lists.) -/
theorem c6_summary_counterexample :
    (get_metrics 256 batchA 1).2 = (get_metrics 256 batchB 1).2 ∧
    npVar ((get_metrics 256 batchA 1).1.err_lo)
      ≠ npVar ((get_metrics 256 batchB 1).1.err_lo) := by
  constructor
  · rw [metrics_outcome_pos 256 1 batchA (by rw [qualifyList_batchA]; norm_num [batchA]),
      metrics_outcome_pos 256 1 batchB (by rw [qualifyList_batchB]; norm_num [batchB])]
    rw [qualifyList_batchA, qualifyList_batchB]
    simp only [batchA, batchB, List.map_cons, List.map_nil, mrecA]
    norm_num [recallOf]
  · rw [metrics_err_lo, metrics_err_lo, qualifyList_batchA, qualifyList_batchB]
    simp only [batchA, batchB, List.map_cons, List.map_nil, mrecA]
    norm_num [npVar, npMean]

/-- C6, amended: when the summary block runs (more than 3 qualifying
images), the only aggregate statistics get_metrics computes over the
included images are the mean and the standard deviation (carried here as
the variance, its square) of the per-image recall, printed by lines
168-169; line 170 then raises TypeError before any other summary
statistic — the precision / fscore / frac_new / frac_new2 / maxrad means
and stds, the error means, or the global maximum of maxrad — is
computed. -/
theorem c6_summary_amended (dim beta : ℚ) (imgs : List ImageInput)
    (h : 3 < (qualifyList dim imgs).length) :
    (get_metrics dim imgs beta).2
      = SummaryOutcome.type_error
          (npMean ((qualifyList dim imgs).map fun im => recallOf im.mrec))
          (npVar ((qualifyList dim imgs).map fun im => recallOf im.mrec)) :=
  metrics_outcome_pos dim beta imgs h

/-- Witness for the amended C6 at the four-image batchA. -/
theorem c6_summary_amended_witness :
    (get_metrics 256 batchA 1).2
      = SummaryOutcome.type_error
          (npMean ((qualifyList 256 batchA).map fun im => recallOf im.mrec))
          (npVar ((qualifyList 256 batchA).map fun im => recallOf im.mrec)) :=
  c6_summary_amended 256 1 batchA (by rw [qualifyList_batchA]; norm_num [batchA])

/-- C7, code_bug: the claim (and the spec) say the summary statistics are
computed and printed exactly when strictly more than 3 images qualify,
skipped otherwise, never fatally.  The source disagrees on the positive
side: entering the branch computes and prints only the recall mean/std
(line 168-169) and then raises an uncaught TypeError at line 170, where
"..." / "..." (a Python-2 line-continuation slip) divides two strings
before the format tuple is evaluated.  This theorem evaluates the model
at a failing input: batchA makes 4 images qualify and the outcome is the
TypeError record carrying only the recall statistics (mean 2/3,
variance 0), while its 3-image prefix leaves the block skipped. -/
theorem c7_summary_crash_on_qualifying_batch :
    3 < (qualifyList 256 batchA).length ∧
    (get_metrics 256 batchA 1).2 = SummaryOutcome.type_error (2 / 3) 0 ∧
    (get_metrics 256 (batchA.take 3) 1).2 = SummaryOutcome.no_summary := by
  refine ⟨by rw [qualifyList_batchA]; norm_num [batchA], ?_, ?_⟩
  · rw [metrics_outcome_pos 256 1 batchA (by rw [qualifyList_batchA]; norm_num [batchA]),
      qualifyList_batchA]
    simp only [batchA, List.map_cons, List.map_nil, mrecA]
    norm_num [recallOf, npMean, npVar]
  · apply metrics_outcome_none
    simp [qualifyList, List.filter, qualifies, batchA, List.take, csvEntry_csv3, mrecA]

/-- C8, for the code_bug record: processing order does not affect what
get_metrics computes.  Faithfully to the source, permuting the batch
leaves the summary-block outcome unchanged (whether the TypeError of
line 170 is reached, and the recall mean and variance computed and
printed before it); and each accumulated per-image list is permuted, so
every aggregate the claim speaks of — the mean and the variance (squared
std) of each of the nine collected lists, and the global maximum of
maxrad — is unchanged in exact arithmetic as a function of the collected
records.  The crash (the line-170 slip) is what prevents the program
from actually producing the non-recall aggregates. -/
theorem c8_order_invariance (dim beta : ℚ) (imgs1 imgs2 : List ImageInput)
    (h : imgs1.Perm imgs2) :
    (get_metrics dim imgs1 beta).2 = (get_metrics dim imgs2 beta).2 ∧
    npMean (get_metrics dim imgs1 beta).1.recall_list
        = npMean (get_metrics dim imgs2 beta).1.recall_list ∧
    npVar (get_metrics dim imgs1 beta).1.recall_list
        = npVar (get_metrics dim imgs2 beta).1.recall_list ∧
    npMean (get_metrics dim imgs1 beta).1.precision
        = npMean (get_metrics dim imgs2 beta).1.precision ∧
    npVar (get_metrics dim imgs1 beta).1.precision
        = npVar (get_metrics dim imgs2 beta).1.precision ∧
    npMean (get_metrics dim imgs1 beta).1.fscore
        = npMean (get_metrics dim imgs2 beta).1.fscore ∧
    npVar (get_metrics dim imgs1 beta).1.fscore
        = npVar (get_metrics dim imgs2 beta).1.fscore ∧
    npMean (get_metrics dim imgs1 beta).1.frac_new
        = npMean (get_metrics dim imgs2 beta).1.frac_new ∧
    npVar (get_metrics dim imgs1 beta).1.frac_new
        = npVar (get_metrics dim imgs2 beta).1.frac_new ∧
    npMean (get_metrics dim imgs1 beta).1.frac_new2
        = npMean (get_metrics dim imgs2 beta).1.frac_new2 ∧
    npVar (get_metrics dim imgs1 beta).1.frac_new2
        = npVar (get_metrics dim imgs2 beta).1.frac_new2 ∧
    npMean (get_metrics dim imgs1 beta).1.maxrad
        = npMean (get_metrics dim imgs2 beta).1.maxrad ∧
    npVar (get_metrics dim imgs1 beta).1.maxrad
        = npVar (get_metrics dim imgs2 beta).1.maxrad ∧
    npMean (get_metrics dim imgs1 beta).1.err_lo
        = npMean (get_metrics dim imgs2 beta).1.err_lo ∧
    npVar (get_metrics dim imgs1 beta).1.err_lo
        = npVar (get_metrics dim imgs2 beta).1.err_lo ∧
    npMean (get_metrics dim imgs1 beta).1.err_la
        = npMean (get_metrics dim imgs2 beta).1.err_la ∧
    npVar (get_metrics dim imgs1 beta).1.err_la
        = npVar (get_metrics dim imgs2 beta).1.err_la ∧
    npMean (get_metrics dim imgs1 beta).1.err_r
        = npMean (get_metrics dim imgs2 beta).1.err_r ∧
    npVar (get_metrics dim imgs1 beta).1.err_r
        = npVar (get_metrics dim imgs2 beta).1.err_r ∧
    npMax (get_metrics dim imgs1 beta).1.maxrad
        = npMax (get_metrics dim imgs2 beta).1.maxrad := by
  have hq : (qualifyList dim imgs1).Perm (qualifyList dim imgs2) := h.filter _
  refine ⟨?_, ?_, ?_, ?_, ?_, ?_, ?_, ?_, ?_, ?_, ?_, ?_, ?_, ?_, ?_, ?_, ?_, ?_,
    ?_, ?_⟩
  · by_cases hl : 3 < (qualifyList dim imgs1).length
    · have hl2 : 3 < (qualifyList dim imgs2).length := by
        rw [← hq.length_eq]
        exact hl
      rw [metrics_outcome_pos dim beta imgs1 hl, metrics_outcome_pos dim beta imgs2 hl2,
        npMean_perm (hq.map _), npVar_perm (hq.map _)]
    · have hl2 : ¬ 3 < (qualifyList dim imgs2).length := by
        rw [← hq.length_eq]
        exact hl
      rw [metrics_outcome_none dim beta imgs1 hl, metrics_outcome_none dim beta imgs2 hl2]
  · rw [metrics_recall dim beta imgs1, metrics_recall dim beta imgs2]
    exact npMean_perm (hq.map _)
  · rw [metrics_recall dim beta imgs1, metrics_recall dim beta imgs2]
    exact npVar_perm (hq.map _)
  · rw [metrics_precision dim beta imgs1, metrics_precision dim beta imgs2]
    exact npMean_perm (hq.map _)
  · rw [metrics_precision dim beta imgs1, metrics_precision dim beta imgs2]
    exact npVar_perm (hq.map _)
  · rw [metrics_fscore dim beta imgs1, metrics_fscore dim beta imgs2]
    exact npMean_perm (hq.map _)
  · rw [metrics_fscore dim beta imgs1, metrics_fscore dim beta imgs2]
    exact npVar_perm (hq.map _)
  · rw [metrics_frac_new dim beta imgs1, metrics_frac_new dim beta imgs2]
    exact npMean_perm (hq.map _)
  · rw [metrics_frac_new dim beta imgs1, metrics_frac_new dim beta imgs2]
    exact npVar_perm (hq.map _)
  · rw [metrics_frac_new2 dim beta imgs1, metrics_frac_new2 dim beta imgs2]
    exact npMean_perm (hq.map _)
  · rw [metrics_frac_new2 dim beta imgs1, metrics_frac_new2 dim beta imgs2]
    exact npVar_perm (hq.map _)
  · rw [metrics_maxrad dim beta imgs1, metrics_maxrad dim beta imgs2]
    exact npMean_perm (hq.map _)
  · rw [metrics_maxrad dim beta imgs1, metrics_maxrad dim beta imgs2]
    exact npVar_perm (hq.map _)
  · rw [metrics_err_lo dim beta imgs1, metrics_err_lo dim beta imgs2]
    exact npMean_perm (hq.map _)
  · rw [metrics_err_lo dim beta imgs1, metrics_err_lo dim beta imgs2]
    exact npVar_perm (hq.map _)
  · rw [metrics_err_la dim beta imgs1, metrics_err_la dim beta imgs2]
    exact npMean_perm (hq.map _)
  · rw [metrics_err_la dim beta imgs1, metrics_err_la dim beta imgs2]
    exact npVar_perm (hq.map _)
  · rw [metrics_err_r dim beta imgs1, metrics_err_r dim beta imgs2]
    exact npMean_perm (hq.map _)
  · rw [metrics_err_r dim beta imgs1, metrics_err_r dim beta imgs2]
    exact npVar_perm (hq.map _)
  · rw [metrics_maxrad dim beta imgs1, metrics_maxrad dim beta imgs2]
    exact npMax_perm (hq.map _)

/-- Witness for C8: reversing the four-image batchB leaves both the
computed outcome and the global maximum of maxrad unchanged. -/
theorem c8_order_witness :
    (get_metrics 256 batchB 1).2 = (get_metrics 256 batchB.reverse 1).2 ∧
    npMax (get_metrics 256 batchB 1).1.maxrad
      = npMax (get_metrics 256 batchB.reverse 1).1.maxrad := by
  obtain ⟨h1, _, _, _, _, _, _, _, _, _, _, _, _, _, _, _, _, _, _, hmax⟩ :=
    c8_order_invariance 256 1 batchB batchB.reverse (batchB.reverse_perm).symm
  exact ⟨h1, hmax⟩

/-- C9: every included image contributes
frac_new = (N_templ - N_match) / N_templ and
frac_new2 = (N_templ - N_match) / N_csv, from its matcher counts. -/
theorem c9_frac_new_formulas (dim beta : ℚ) (imgs : List ImageInput) :
    (get_metrics dim imgs beta).1.frac_new
        = (qualifyList dim imgs).map (fun im =>
            ((im.mrec.N_templ : ℚ) - (im.mrec.N_match : ℚ))
              / (im.mrec.N_templ : ℚ)) ∧
      (get_metrics dim imgs beta).1.frac_new2
        = (qualifyList dim imgs).map (fun im =>
            ((im.mrec.N_templ : ℚ) - (im.mrec.N_match : ℚ))
              / (im.mrec.N_csv : ℚ)) := by
  constructor
  · rw [metrics_frac_new]
    refine List.map_congr_left ?_
    intro im _
    unfold fracNewOf
    push_cast
    ring
  · rw [metrics_frac_new2]
    refine List.map_congr_left ?_
    intro im _
    unfold fracNew2Of
    push_cast
    ring

/-- C10: for a non-empty list, get_param_i returns param[i] when
i < len(param) and otherwise falls back to param[0] — iterations beyond
the list's length silently reuse the first element instead of failing. -/
theorem c10_get_param_fallback {α : Type} (param : List α) (i : ℕ)
    (hne : param ≠ []) :
    (∀ h : i < param.length, get_param_i param i = some (param.get ⟨i, h⟩)) ∧
    (param.length ≤ i →
      get_param_i param i = some (param.get ⟨0, List.length_pos.mpr hne⟩)) := by
  constructor
  · intro h
    unfold get_param_i
    rw [if_pos h]
    simp [List.getElem?_eq_getElem h]
  · intro h
    unfold get_param_i
    rw [if_neg (not_lt.mpr h)]
    simp [List.getElem?_eq_getElem (List.length_pos.mpr hne)]

/-- Witness for C10: an in-range index returns that element, an
out-of-range index returns the first element. -/
theorem c10_get_param_witness :
    get_param_i ([5, 6, 7] : List ℕ) 1 = some 6 ∧
    get_param_i ([5, 6, 7] : List ℕ) 9 = some 5 := by
  have h1 := c10_get_param_fallback ([5, 6, 7] : List ℕ) 1 (by decide)
  have h2 := c10_get_param_fallback ([5, 6, 7] : List ℕ) 9 (by decide)
  exact ⟨h1.1 (by decide), h2.2 (by decide)⟩

end DeepMoon
